import Mathlib

/-!
Verification of the luminous-neural persistence and relationship core.

The definitions below are a shallow embedding of the Python sources:

* `src/app/repositories/base.py`        — `BaseRepository` (generic CRUD)
* `src/app/repositories/many_to_many.py`— `ManyToManyRepository` (link/unlink/get_links)
* `src/app/domains/<kind>/model.py`     — entity rows (with `TimestampMixin`, `AuditMixin`)
* `src/app/domains/<kind>/schema.py`    — pydantic create/update/response schemas
* `src/app/domains/<kind>/service.py`   — domain services
* `src/app/domains/associations/*.py`   — association tables (composite primary keys)
* `src/app/api/exceptions.py`           — `NotFoundException(resource, resource_id)`
* `src/app/core/sql_database.py`        — process-global `db` singleton, `get_session`

Conventions of the embedding:

* An entity store is a `List` of rows in storage order; timestamps are `Nat` ticks.
* Python exceptions and SQL errors are values of one inductive type `PyError`.
  `PyError.notFoundExc r i` embeds `NotFoundException(r, i)` and carries the entity
  kind name and the requested id exactly as the Python constructor does.
  `integrityError` embeds sqlalchemy's `IntegrityError` (uniqueness violation),
  `typeError` / `attributeError` embed the builtin `TypeError` / `AttributeError`,
  `operationalError` embeds an unknown-column SQL failure, and `validationError`
  embeds a pydantic `ValidationError`.
* Fallible code returns `Except PyError _`; an `.error` result leaves every store
  unchanged (state is passed explicitly, so only `.ok` carries a new state).
* The SQLite engine is created without a foreign-key pragma
  (`create_engine(db_url, echo=echo)` in `sql_database.py`), so foreign-key
  references are NOT enforced; only primary-key uniqueness is.  The association
  tables used by the services (`enterprise_agent`, `enterprise_ia_group`,
  `enterprise_user`, `ia_group_agent`, `user_enterprise`) each declare BOTH columns
  `primary_key=True`, i.e. a composite primary key, so a duplicate (left, right)
  pair violates uniqueness while any ids — existing or not — may be inserted.
-/

set_option autoImplicit false

namespace LuminousNeural

/-- Errors and exceptions that the embedded code can surface. -/
inductive PyError where
  /-- `NotFoundException(resource, resource_id)` from `app/api/exceptions.py`:
  carries the entity kind name and the requested id. -/
  | notFoundExc (resource : String) (resourceId : Nat)
  /-- sqlalchemy `IntegrityError`: a uniqueness constraint was violated. -/
  | integrityError
  /-- Python builtin `AttributeError`: attribute lookup failed. -/
  | attributeError
  /-- Python builtin `TypeError`: a call did not match the callee's signature. -/
  | typeError
  /-- SQL failure for a statement addressing an unknown column. -/
  | operationalError
  /-- pydantic `ValidationError`: a required field was missing or a validator failed. -/
  | validationError
deriving DecidableEq, Repr

/-! ## Entity rows

Each structure mirrors the mapped columns of the corresponding model class,
including the columns contributed by `TimestampMixin` (`created_at` non-null,
`updated_at` nullable) and `AuditMixin` (`created_by` non-null, `updated_by`
nullable).  `status` is the active flag, defaulting to `True` at creation. -/

/-- Row of table `enterprise` (`src/app/domains/enterprise/model.py`). -/
structure Enterprise where
  id : Nat
  name : String
  description : String
  ia_model : String
  status : Bool
  created_at : Nat
  updated_at : Option Nat
  created_by : String
  updated_by : Option String
deriving DecidableEq, Repr

/-- Row of table `user` (`src/app/domains/user/model.py`). -/
structure User where
  id : Nat
  name : String
  email : String
  password : String
  is_admin : Bool
  status : Bool
  created_at : Nat
  updated_at : Option Nat
  created_by : String
  updated_by : Option String
deriving DecidableEq, Repr

/-- Row of table `ia_group` (`src/app/domains/ia_group/model.py`). -/
structure IAGroup where
  id : Nat
  name : String
  description : String
  status : Bool
  created_at : Nat
  updated_at : Option Nat
  created_by : String
  updated_by : Option String
deriving DecidableEq, Repr

/-- Row of table `agent` (`src/app/domains/agent/model.py`). -/
structure Agent where
  id : Nat
  name : String
  description : String
  system_message : String
  status : Bool
  created_at : Nat
  updated_at : Option Nat
  created_by : String
  updated_by : Option String
deriving DecidableEq, Repr

/-- Row of table `tool` (`src/app/domains/tool/model.py`). -/
structure Tool where
  id : Nat
  name : String
  description : String
  path : String
  status : Bool
  created_at : Nat
  updated_at : Option Nat
  created_by : String
  updated_by : Option String
deriving DecidableEq, Repr

/-- Every model class extends `Base`, which declares the integer primary-key
column `id`; this class captures that shared capability. -/
class ModelWithId (T : Type) where
  idOf : T → Nat

instance : ModelWithId Enterprise := ⟨Enterprise.id⟩
instance : ModelWithId User := ⟨User.id⟩
instance : ModelWithId IAGroup := ⟨IAGroup.id⟩
instance : ModelWithId Agent := ⟨Agent.id⟩
instance : ModelWithId Tool := ⟨Tool.id⟩

namespace BaseRepository

/-- `BaseRepository.get_by_id`: `session.query(model).filter(model.id == id).first()` —
the first row whose primary key matches, or `None` (the absence sentinel). -/
def get_by_id {T : Type} [ModelWithId T] (store : List T) (i : Nat) : Option T :=
  store.find? (fun e => ModelWithId.idOf e == i)

/-- Attribute names defined on `BaseRepository` instances by `base.py`:
the two instance attributes set in `__init__` and the five methods of the class.
There is no `logical_delete` among them. -/
def attrs : List String :=
  ["model", "session", "create", "get_all", "get_by_id", "update", "delete"]

/-- Python attribute lookup on a `BaseRepository` instance: succeeds exactly for
the attributes `base.py` defines; any other name raises `AttributeError`. -/
def hasAttr (name : String) : Bool :=
  name ∈ attrs

/-- Number of positional parameters (beyond `self`) of `BaseRepository.update`:
`def update(self, obj, **kwargs)` binds exactly one positional argument; the
keyword-variadic `**kwargs` accepts none positionally. -/
def updatePositionalParams : Nat := 1

end BaseRepository

/-- `Session.get(Model, pk)` as used by the link operations: a primary-key
lookup returning the row or `None`. -/
def sessionGet {T : Type} [ModelWithId T] (store : List T) (i : Nat) : Option T :=
  store.find? (fun e => ModelWithId.idOf e == i)

/-! ## The process-global database singleton and repository construction

`sql_database.py` builds one module-level `db = SQLDatabaseSettings(...)`;
`db.get_session()` constructs a brand-new `Session` from the factory on every
call.  `BaseRepository.__init__(self, model)` takes the model class as its only
argument and sets `self.session = db.get_session()` — it never receives a
session from the caller.  We model the singleton as a counter of sessions
created so far; a fresh session is identified by the next counter value. -/

/-- State of the process-global `db` singleton: how many sessions
`get_session` has handed out. -/
structure DbState where
  sessionsCreated : Nat
deriving DecidableEq, Repr

namespace SQLDatabaseSettings

/-- `db.get_session()`: returns a brand-new session (identified by a fresh
number) and the advanced singleton state. -/
def get_session (db : DbState) : Nat × DbState :=
  (db.sessionsCreated + 1, { sessionsCreated := db.sessionsCreated + 1 })

end SQLDatabaseSettings

/-- A constructed `BaseRepository` instance: its model class (by name) and the
session it is bound to. -/
structure BaseRepositoryInstance where
  modelName : String
  sessionId : Nat
deriving DecidableEq, Repr

namespace BaseRepository

/-- Calling `BaseRepository(...)` with a list of positional arguments.
`def __init__(self, model)` declares exactly one parameter beyond `self`, so
Python raises `TypeError` unless exactly one positional argument is passed;
on success the instance is bound to a session freshly obtained from the
process-global `db` singleton (`self.session = db.get_session()`). -/
def init (db : DbState) (positionalArgs : List String) :
    Except PyError (BaseRepositoryInstance × DbState) :=
  match positionalArgs with
  | [model] =>
      let s := SQLDatabaseSettings.get_session db
      .ok ({ modelName := model, sessionId := s.1 }, s.2)
  | _ => .error .typeError

end BaseRepository

/-- Subscripting a class deriving from `typing.Generic`: raises `TypeError`
when the number of type arguments differs from the number of declared type
parameters. -/
def pythonGenericSubscript (typeParams typeArgs : Nat) : Except PyError Unit :=
  if typeArgs = typeParams then .ok () else .error .typeError

/-- Number of type parameters of `BaseRepository`: `class BaseRepository(Generic[T])`. -/
def baseRepositoryTypeParams : Nat := 1

namespace DomainService

/-- The repository construction performed by every domain service constructor:
`BaseRepository[Model, CreateSchema](Model, self._session)` — the class is
subscripted with TWO type arguments (`Generic[T]` declares one) and then called
with TWO positional arguments (`__init__` declares one). -/
def initRepository (db : DbState) (modelName : String) :
    Except PyError (BaseRepositoryInstance × DbState) :=
  match pythonGenericSubscript baseRepositoryTypeParams 2 with
  | .error e => .error e
  | .ok _ => BaseRepository.init db [modelName, "self._session"]

end DomainService

/-! ## Association tables and `ManyToManyRepository`

An association table has two named integer columns and a list of rows in
storage order.  For every table instantiated by the services both columns are
declared `primary_key=True`, so the composite pair is unique and a duplicate
row violates the primary-key constraint.  Foreign keys are not enforced (no
foreign-key pragma is issued for the SQLite engine). -/

/-- An association table: its two column names and its rows, a row holding the
value of `col1` in the first component and of `col2` in the second. -/
structure AssocTable where
  col1 : String
  col2 : String
  rows : List (Nat × Nat)
deriving DecidableEq, Repr

/-- The row produced by `insert(table).values({left_key: left_id, right_key: right_id})`:
the values dictionary is mapped onto the table's columns by name; a key naming
no column makes the statement fail. -/
def rowOfValues (t : AssocTable) (leftKey : String) (leftId : Nat)
    (rightKey : String) (rightId : Nat) : Option (Nat × Nat) :=
  if leftKey = t.col1 ∧ rightKey = t.col2 then some (leftId, rightId)
  else if leftKey = t.col2 ∧ rightKey = t.col1 then some (rightId, leftId)
  else none

/-- `getattr(table.c, key)` applied to a row: the value stored in the named
column, or `none` when the table has no such column. -/
def colVal (t : AssocTable) (row : Nat × Nat) (key : String) : Option Nat :=
  if key = t.col1 then some row.1
  else if key = t.col2 then some row.2
  else none

/-- Both key names address actual columns of the table (otherwise
`getattr(self.association_table.c, key)` raises `AttributeError`). -/
def validKeys (t : AssocTable) (leftKey rightKey : String) : Bool :=
  decide ((leftKey = t.col1 ∨ leftKey = t.col2) ∧ (rightKey = t.col1 ∨ rightKey = t.col2))

namespace ManyToManyRepository

/-- `ManyToManyRepository.link`: inserts one row built from
`{left_key: left_id, right_key: right_id}` and commits.  Inserting a row equal
to an existing one violates the composite primary key and surfaces as an
`IntegrityError`; the repository performs no existence check on the ids and
catches nothing. -/
def link (t : AssocTable) (leftId rightId : Nat) (leftKey rightKey : String) :
    Except PyError AssocTable :=
  match rowOfValues t leftKey leftId rightKey rightId with
  | none => .error .operationalError
  | some row =>
      if row ∈ t.rows then .error .integrityError
      else .ok { t with rows := t.rows ++ [row] }

/-- Whether a stored row matches the WHERE clause of `unlink`:
`col[left_key] == left_id AND col[right_key] == right_id`. -/
def unlinkMatches (t : AssocTable) (leftId rightId : Nat)
    (leftKey rightKey : String) (row : Nat × Nat) : Bool :=
  colVal t row leftKey == some leftId && colVal t row rightKey == some rightId

/-- `ManyToManyRepository.unlink`: deletes every row matching both key/value
pairs and commits.  Deleting zero rows is not an error. -/
def unlink (t : AssocTable) (leftId rightId : Nat) (leftKey rightKey : String) :
    Except PyError AssocTable :=
  if validKeys t leftKey rightKey then
    .ok { t with rows := t.rows.filter (fun row => ! unlinkMatches t leftId rightId leftKey rightKey row) }
  else .error .attributeError

/-- `ManyToManyRepository.get_links`: selects the `right_key` column of every
row whose `left_key` column equals `left_id`, in storage order, as integers. -/
def get_links (t : AssocTable) (leftId : Nat) (leftKey rightKey : String) :
    Except PyError (List Nat) :=
  if validKeys t leftKey rightKey then
    .ok ((t.rows.filter (fun row => colVal t row leftKey == some leftId)).filterMap
      (fun row => colVal t row rightKey))
  else .error .attributeError

end ManyToManyRepository

/-- Table `enterprise_ia_group` (`associations/enterprise_ia_group_association.py`):
columns `enterprise_id`, `ia_group_id`, both primary key. -/
def enterpriseIaGroupAssociation (rows : List (Nat × Nat)) : AssocTable :=
  { col1 := "enterprise_id", col2 := "ia_group_id", rows := rows }

/-- Table `user_enterprise` (`associations/user_enterprise_association.py`):
columns `enterprise_id`, `user_id` (in that order in the table definition),
both primary key. -/
def userEnterpriseAssociation (rows : List (Nat × Nat)) : AssocTable :=
  { col1 := "enterprise_id", col2 := "user_id", rows := rows }

/-- Table `ia_group_agent` (`associations/ia_group_agent_association.py`):
columns `ia_group_id`, `agent_id`, both primary key. -/
def iaGroupAgentAssociation (rows : List (Nat × Nat)) : AssocTable :=
  { col1 := "ia_group_id", col2 := "agent_id", rows := rows }

/-! ## Pydantic schemas

For each schema class we embed a payload type (the caller's JSON object: every
field optional, `none` = absent) and a `validate` function mirroring pydantic's
required/default handling: a field declared without a default rejects an absent
value with a `ValidationError`; a field declared with a default substitutes it.
Length/format constraints declared through `Field` metadata belong to the
excluded validation layer and are not modelled; the `password_complexity`
`field_validator` of the user schemas is code in the schema module and is
modelled. -/

/-- Validated `EnterpriseCreateSchema` (`enterprise/schema.py`): all four
fields, including `created_by`, are declared required (`Field(...)`). -/
structure EnterpriseCreateSchema where
  name : String
  description : String
  ia_model : String
  created_by : String
deriving DecidableEq, Repr

/-- Caller payload for `EnterpriseCreateSchema`. -/
structure EnterpriseCreatePayload where
  name : Option String
  description : Option String
  ia_model : Option String
  created_by : Option String
deriving DecidableEq, Repr

/-- Validation of `EnterpriseCreateSchema`: every field is required and
`created_by` has NO default, so an absent `created_by` is rejected. -/
def EnterpriseCreateSchema.validate (p : EnterpriseCreatePayload) :
    Except PyError EnterpriseCreateSchema :=
  match p.name, p.description, p.ia_model, p.created_by with
  | some n, some d, some m, some c => .ok { name := n, description := d, ia_model := m, created_by := c }
  | _, _, _, _ => .error .validationError

/-- Validated `EnterpriseUpdateSchema`: all four fields, including
`updated_by`, are declared required (`Field(...)`) — the schema is not partial. -/
structure EnterpriseUpdateSchema where
  name : String
  description : String
  ia_model : String
  updated_by : String
deriving DecidableEq, Repr

/-- Caller payload for `EnterpriseUpdateSchema`. -/
structure EnterpriseUpdatePayload where
  name : Option String
  description : Option String
  ia_model : Option String
  updated_by : Option String
deriving DecidableEq, Repr

/-- Validation of `EnterpriseUpdateSchema`: every field required, no defaults. -/
def EnterpriseUpdateSchema.validate (p : EnterpriseUpdatePayload) :
    Except PyError EnterpriseUpdateSchema :=
  match p.name, p.description, p.ia_model, p.updated_by with
  | some n, some d, some m, some u => .ok { name := n, description := d, ia_model := m, updated_by := u }
  | _, _, _, _ => .error .validationError

/-- Validated `AgentCreateSchema`: `name`, `description`, `system_message`
required; `created_by` defaults to `"system"`. -/
structure AgentCreateSchema where
  name : String
  description : String
  system_message : String
  created_by : String
deriving DecidableEq, Repr

/-- Caller payload for `AgentCreateSchema`. -/
structure AgentCreatePayload where
  name : Option String
  description : Option String
  system_message : Option String
  created_by : Option String
deriving DecidableEq, Repr

/-- Validation of `AgentCreateSchema`. -/
def AgentCreateSchema.validate (p : AgentCreatePayload) :
    Except PyError AgentCreateSchema :=
  match p.name, p.description, p.system_message with
  | some n, some d, some s =>
      .ok { name := n, description := d, system_message := s, created_by := p.created_by.getD "system" }
  | _, _, _ => .error .validationError

/-- Validated `AgentUpdateSchema`: `name` and `description` optional
(default `None`), `system_message` required, `updated_by` defaults to
`"system"`. -/
structure AgentUpdateSchema where
  name : Option String
  description : Option String
  system_message : String
  updated_by : String
deriving DecidableEq, Repr

/-- Caller payload for `AgentUpdateSchema`. -/
structure AgentUpdatePayload where
  name : Option String
  description : Option String
  system_message : Option String
  updated_by : Option String
deriving DecidableEq, Repr

/-- Validation of `AgentUpdateSchema`. -/
def AgentUpdateSchema.validate (p : AgentUpdatePayload) :
    Except PyError AgentUpdateSchema :=
  match p.system_message with
  | some s =>
      .ok { name := p.name, description := p.description, system_message := s,
            updated_by := p.updated_by.getD "system" }
  | none => .error .validationError

/-- Validated `IAGroupCreateSchema`: `name`, `description` required;
`created_by` defaults to `"system"`. -/
structure IAGroupCreateSchema where
  name : String
  description : String
  created_by : String
deriving DecidableEq, Repr

/-- Caller payload for `IAGroupCreateSchema`. -/
structure IAGroupCreatePayload where
  name : Option String
  description : Option String
  created_by : Option String
deriving DecidableEq, Repr

/-- Validation of `IAGroupCreateSchema`. -/
def IAGroupCreateSchema.validate (p : IAGroupCreatePayload) :
    Except PyError IAGroupCreateSchema :=
  match p.name, p.description with
  | some n, some d => .ok { name := n, description := d, created_by := p.created_by.getD "system" }
  | _, _ => .error .validationError

/-- Validated `IAGroupUpdateSchema`: `name`, `description` optional;
`updated_by` defaults to `"system"`. -/
structure IAGroupUpdateSchema where
  name : Option String
  description : Option String
  updated_by : String
deriving DecidableEq, Repr

/-- Caller payload for `IAGroupUpdateSchema`. -/
structure IAGroupUpdatePayload where
  name : Option String
  description : Option String
  updated_by : Option String
deriving DecidableEq, Repr

/-- Validation of `IAGroupUpdateSchema`. -/
def IAGroupUpdateSchema.validate (p : IAGroupUpdatePayload) :
    Except PyError IAGroupUpdateSchema :=
  .ok { name := p.name, description := p.description, updated_by := p.updated_by.getD "system" }

/-- Validated `ToolCreateSchema`: `name`, `description`, `path` required;
`created_by` defaults to `"system"`. -/
structure ToolCreateSchema where
  name : String
  description : String
  path : String
  created_by : String
deriving DecidableEq, Repr

/-- Caller payload for `ToolCreateSchema`. -/
structure ToolCreatePayload where
  name : Option String
  description : Option String
  path : Option String
  created_by : Option String
deriving DecidableEq, Repr

/-- Validation of `ToolCreateSchema`. -/
def ToolCreateSchema.validate (p : ToolCreatePayload) :
    Except PyError ToolCreateSchema :=
  match p.name, p.description, p.path with
  | some n, some d, some pa =>
      .ok { name := n, description := d, path := pa, created_by := p.created_by.getD "system" }
  | _, _, _ => .error .validationError

/-- Validated `ToolUpdateSchema`: `name`, `description` optional, `path`
required, `updated_by` defaults to `"system"`. -/
structure ToolUpdateSchema where
  name : Option String
  description : Option String
  path : String
  updated_by : String
deriving DecidableEq, Repr

/-- Caller payload for `ToolUpdateSchema`. -/
structure ToolUpdatePayload where
  name : Option String
  description : Option String
  path : Option String
  updated_by : Option String
deriving DecidableEq, Repr

/-- Validation of `ToolUpdateSchema`. -/
def ToolUpdateSchema.validate (p : ToolUpdatePayload) :
    Except PyError ToolUpdateSchema :=
  match p.path with
  | some pa =>
      .ok { name := p.name, description := p.description, path := pa,
            updated_by := p.updated_by.getD "system" }
  | none => .error .validationError

/-- The `password_complexity` field validator of `user/schema.py`: the password
must contain at least one lowercase letter, one uppercase letter and one digit. -/
def passwordComplexityOk (pw : String) : Bool :=
  pw.toList.any Char.isLower && pw.toList.any Char.isUpper && pw.toList.any Char.isDigit

/-- Validated `UserCreateSchema`: `name`, `email`, `password` required;
`is_admin` defaults to `False`; `created_by` defaults to `"system"`;
the password must pass `password_complexity`. -/
structure UserCreateSchema where
  name : String
  email : String
  password : String
  is_admin : Bool
  created_by : String
deriving DecidableEq, Repr

/-- Caller payload for `UserCreateSchema`. -/
structure UserCreatePayload where
  name : Option String
  email : Option String
  password : Option String
  is_admin : Option Bool
  created_by : Option String
deriving DecidableEq, Repr

/-- Validation of `UserCreateSchema`. -/
def UserCreateSchema.validate (p : UserCreatePayload) :
    Except PyError UserCreateSchema :=
  match p.name, p.email, p.password with
  | some n, some e, some pw =>
      if passwordComplexityOk pw then
        .ok { name := n, email := e, password := pw,
              is_admin := p.is_admin.getD false, created_by := p.created_by.getD "system" }
      else .error .validationError
  | _, _, _ => .error .validationError

/-- Validated `UserUpdateSchema`: every field optional; `updated_by` defaults
to `"system"`; a supplied password must pass `password_complexity`. -/
structure UserUpdateSchema where
  name : Option String
  email : Option String
  password : Option String
  is_admin : Option Bool
  status : Option Bool
  updated_by : String
deriving DecidableEq, Repr

/-- Caller payload for `UserUpdateSchema`. -/
structure UserUpdatePayload where
  name : Option String
  email : Option String
  password : Option String
  is_admin : Option Bool
  status : Option Bool
  updated_by : Option String
deriving DecidableEq, Repr

/-- Validation of `UserUpdateSchema`. -/
def UserUpdateSchema.validate (p : UserUpdatePayload) :
    Except PyError UserUpdateSchema :=
  match p.password with
  | some pw =>
      if passwordComplexityOk pw then
        .ok { name := p.name, email := p.email, password := some pw, is_admin := p.is_admin,
              status := p.status, updated_by := p.updated_by.getD "system" }
      else .error .validationError
  | none =>
      .ok { name := p.name, email := p.email, password := none, is_admin := p.is_admin,
            status := p.status, updated_by := p.updated_by.getD "system" }

/-! ## Response schemas

Each response structure lists exactly the fields its pydantic class declares,
and `model_validate` is the attribute-wise projection from the model row
(`model_config = from_attributes`). -/

/-- `EnterpriseResponseSchema` (`enterprise/schema.py`): it declares `id`,
`name`, `description`, `ia_model`, `created_at`, `created_by` — and no
`status`, `updated_at` or `updated_by` field. -/
structure EnterpriseResponse where
  id : Nat
  name : String
  description : String
  ia_model : String
  created_at : Nat
  created_by : String
deriving DecidableEq, Repr

/-- `EnterpriseResponseSchema.model_validate`: reads the declared fields off
the `Enterprise` row. -/
def EnterpriseResponseSchema.model_validate (e : Enterprise) : EnterpriseResponse :=
  { id := e.id, name := e.name, description := e.description, ia_model := e.ia_model,
    created_at := e.created_at, created_by := e.created_by }

/-- `UserResponseSchema` (`user/schema.py`): declares `id`, `name`, `email`,
`is_admin`, `status` and the four audit/timestamp fields. -/
structure UserResponse where
  id : Nat
  name : String
  email : String
  is_admin : Bool
  status : Bool
  created_at : Option Nat
  created_by : Option String
  updated_at : Option Nat
  updated_by : Option String
deriving DecidableEq, Repr

/-- `UserResponseSchema.model_validate`. -/
def UserResponseSchema.model_validate (u : User) : UserResponse :=
  { id := u.id, name := u.name, email := u.email, is_admin := u.is_admin, status := u.status,
    created_at := some u.created_at, created_by := some u.created_by,
    updated_at := u.updated_at, updated_by := u.updated_by }

/-- `AgentResponseSchema` (`agent/schema.py`): declares `id`, `name`,
`description`, `system_message` and the four audit/timestamp fields, but no
`status`. -/
structure AgentResponse where
  id : Nat
  name : String
  description : String
  system_message : String
  created_at : Option Nat
  created_by : Option String
  updated_at : Option Nat
  updated_by : Option String
deriving DecidableEq, Repr

/-- `AgentResponseSchema.model_validate`. -/
def AgentResponseSchema.model_validate (a : Agent) : AgentResponse :=
  { id := a.id, name := a.name, description := a.description, system_message := a.system_message,
    created_at := some a.created_at, created_by := some a.created_by,
    updated_at := a.updated_at, updated_by := a.updated_by }

/-- `IAGroupResponseSchema` (`ia_group/schema.py`): declares `id`, `name`,
`description` and the four audit/timestamp fields, but no `status`. -/
structure IAGroupResponse where
  id : Nat
  name : String
  description : String
  created_at : Option Nat
  created_by : Option String
  updated_at : Option Nat
  updated_by : Option String
deriving DecidableEq, Repr

/-- `IAGroupResponseSchema.model_validate`. -/
def IAGroupResponseSchema.model_validate (g : IAGroup) : IAGroupResponse :=
  { id := g.id, name := g.name, description := g.description,
    created_at := some g.created_at, created_by := some g.created_by,
    updated_at := g.updated_at, updated_by := g.updated_by }

/-- `ToolResponseSchema` (`tool/schema.py`): declares `id`, `name`,
`description`, `path` and the four audit/timestamp fields, but no `status`. -/
structure ToolResponse where
  id : Nat
  name : String
  description : String
  path : String
  created_at : Option Nat
  created_by : Option String
  updated_at : Option Nat
  updated_by : Option String
deriving DecidableEq, Repr

/-- `ToolResponseSchema.model_validate`. -/
def ToolResponseSchema.model_validate (t : Tool) : ToolResponse :=
  { id := t.id, name := t.name, description := t.description, path := t.path,
    created_at := some t.created_at, created_by := some t.created_by,
    updated_at := t.updated_at, updated_by := t.updated_by }

/-! ## Domain services

Each function embeds one service method body.  The per-service association
repositories are bound to fixed tables in the constructors
(`self._enterprise_ia_group = ManyToManyRepository(session, enterprise_ia_group_association)`
and so on), so the service-level operations take the table's row list and apply
the repository to the fixed table with the literal key names of the call site. -/

namespace EnterpriseService

/-- `EnterpriseService.list_by_id`: `get_by_id`, then `NotFoundException('Enterprise', id)`
when the sentinel came back, otherwise the response projection. -/
def list_by_id (store : List Enterprise) (i : Nat) : Except PyError EnterpriseResponse :=
  match BaseRepository.get_by_id store i with
  | none => .error (.notFoundExc "Enterprise" i)
  | some e => .ok (EnterpriseResponseSchema.model_validate e)

/-- `EnterpriseService.update`: loads by id (`NotFoundException` if absent), then
evaluates `self._repository.update(enterprise, schema)`.  That call passes the
schema object as a SECOND positional argument, but `BaseRepository.update` binds
only `obj` positionally (`def update(self, obj, **kwargs)`), so Python raises
`TypeError` before any field is touched. -/
def update (store : List Enterprise) (i : Nat) (schema : EnterpriseUpdateSchema) :
    Except PyError EnterpriseResponse :=
  match BaseRepository.get_by_id store i with
  | none => .error (.notFoundExc "Enterprise" i)
  | some e =>
      if 2 ≤ BaseRepository.updatePositionalParams then
        -- dead branch: `update` declares a single positional parameter, so the
        -- two-positional-argument call never binds; kept only to give the
        -- would-be success some value of the right type
        .ok (EnterpriseResponseSchema.model_validate e)
      else .error .typeError

/-- `EnterpriseService.logical_delete`: loads by id (`NotFoundException` if
absent), then evaluates `self._repository.logical_delete(enterprise)`.
`BaseRepository` defines no attribute named `logical_delete` (its attributes
are listed in `BaseRepository.attrs`), so the attribute lookup raises
`AttributeError` and the row is never touched. -/
def logical_delete (store : List Enterprise) (i : Nat) : Except PyError (List Enterprise) :=
  match BaseRepository.get_by_id store i with
  | none => .error (.notFoundExc "Enterprise" i)
  | some _ =>
      if BaseRepository.hasAttr "logical_delete" then
        -- dead branch: base.py defines no `logical_delete`, so the lookup
        -- fails before any call happens; the store is returned unchanged here
        -- only to give the branch a value of the right type
        .ok store
      else .error .attributeError

/-- `EnterpriseService.link_ia_group`: loads the enterprise via `get_by_id`
(`NotFoundException('Enterprise', enterprise_id)` if absent), loads the group
via `session.get(IAGroup, ia_group_id)` (`NotFoundException('IAGroup', ia_group_id)`
if absent), and only then calls the association repository's `link` on the
`enterprise_ia_group` table with keys `enterprise_id` / `ia_group_id`. -/
def link_ia_group (ents : List Enterprise) (iaGroups : List IAGroup)
    (assocRows : List (Nat × Nat)) (enterpriseId iaGroupId : Nat) :
    Except PyError AssocTable :=
  match BaseRepository.get_by_id ents enterpriseId with
  | none => .error (.notFoundExc "Enterprise" enterpriseId)
  | some _ =>
      match sessionGet iaGroups iaGroupId with
      | none => .error (.notFoundExc "IAGroup" iaGroupId)
      | some _ =>
          ManyToManyRepository.link (enterpriseIaGroupAssociation assocRows)
            enterpriseId iaGroupId "enterprise_id" "ia_group_id"

/-- `EnterpriseService.unlink_ia_group`: delegates directly to the association
repository's `unlink`, with no existence pre-check of either entity. -/
def unlink_ia_group (assocRows : List (Nat × Nat)) (enterpriseId iaGroupId : Nat) :
    Except PyError AssocTable :=
  ManyToManyRepository.unlink (enterpriseIaGroupAssociation assocRows)
    enterpriseId iaGroupId "enterprise_id" "ia_group_id"

/-- `EnterpriseService.list_ia_groups`: delegates to `get_links` on the
`enterprise_ia_group` table, anchored at the enterprise id. -/
def list_ia_groups (assocRows : List (Nat × Nat)) (enterpriseId : Nat) :
    Except PyError (List Nat) :=
  ManyToManyRepository.get_links (enterpriseIaGroupAssociation assocRows)
    enterpriseId "enterprise_id" "ia_group_id"

end EnterpriseService

namespace UserService

/-- `UserService.link_enterprise`: loads the user via `get_by_id`
(`NotFoundException('User', user_id)` if absent) and then calls `link` on the
`user_enterprise` table with keys `user_id` / `enterprise_id`.  Unlike
`EnterpriseService.link_ia_group`, it performs NO lookup of the enterprise —
the method body never consults the enterprise store. -/
def link_enterprise (users : List User) (assocRows : List (Nat × Nat))
    (userId enterpriseId : Nat) : Except PyError AssocTable :=
  match BaseRepository.get_by_id users userId with
  | none => .error (.notFoundExc "User" userId)
  | some _ =>
      ManyToManyRepository.link (userEnterpriseAssociation assocRows)
        userId enterpriseId "user_id" "enterprise_id"

/-- `UserService.unlink_enterprise`: delegates directly to `unlink`, no
existence pre-check. -/
def unlink_enterprise (assocRows : List (Nat × Nat)) (userId enterpriseId : Nat) :
    Except PyError AssocTable :=
  ManyToManyRepository.unlink (userEnterpriseAssociation assocRows)
    userId enterpriseId "user_id" "enterprise_id"

/-- `UserService.list_enterprises`: delegates to `get_links` on the
`user_enterprise` table, anchored at the user id. -/
def list_enterprises (assocRows : List (Nat × Nat)) (userId : Nat) :
    Except PyError (List Nat) :=
  ManyToManyRepository.get_links (userEnterpriseAssociation assocRows)
    userId "user_id" "enterprise_id"

end UserService

namespace IAGroupService

/-- `IAGroupService.link_agent`: loads the group via `get_by_id`
(`NotFoundException('IA Group', ia_group_id)` if absent), loads the agent via
`session.get(Agent, agent_id)` (`NotFoundException('Agent', agent_id)` if
absent), and only then calls `link` on the `ia_group_agent` table with keys
`ia_group_id` / `agent_id`. -/
def link_agent (iaGroups : List IAGroup) (agents : List Agent)
    (assocRows : List (Nat × Nat)) (iaGroupId agentId : Nat) :
    Except PyError AssocTable :=
  match BaseRepository.get_by_id iaGroups iaGroupId with
  | none => .error (.notFoundExc "IA Group" iaGroupId)
  | some _ =>
      match sessionGet agents agentId with
      | none => .error (.notFoundExc "Agent" agentId)
      | some _ =>
          ManyToManyRepository.link (iaGroupAgentAssociation assocRows)
            iaGroupId agentId "ia_group_id" "agent_id"

end IAGroupService

/-! ## Sample rows used by witnesses and counterexamples -/

/-- A concrete active enterprise row with id 1. -/
def sampleEnterprise : Enterprise :=
  { id := 1, name := "Acme", description := "a valid description", ia_model := "gpt",
    status := true, created_at := 10, updated_at := none,
    created_by := "system", updated_by := none }

/-- The same enterprise after updates: inactive, with updated metadata. -/
def sampleInactiveEnterprise : Enterprise :=
  { sampleEnterprise with status := false, updated_at := some 20, updated_by := some "admin" }

/-- A concrete user row with id 1. -/
def sampleUser : User :=
  { id := 1, name := "Ada", email := "ada@example.com", password := "Password1",
    is_admin := false, status := true, created_at := 10, updated_at := none,
    created_by := "system", updated_by := none }

/-- A concrete IA group row with id 5. -/
def sampleIAGroup : IAGroup :=
  { id := 5, name := "Research", description := "a valid description",
    status := true, created_at := 10, updated_at := none,
    created_by := "system", updated_by := none }

/-- A concrete update schema for the enterprise (all fields are required by the
schema, so a name-only payload cannot even be validated). -/
def sampleEnterpriseUpdate : EnterpriseUpdateSchema :=
  { name := "NewName", description := "a valid description", ia_model := "gpt",
    updated_by := "system" }

/-! ## Claims -/

/-- Claim C2 (code bug): the spec requires the Generic Repository to provide an
idempotent `logical_delete(entity)` that sets the active flag to false, but
`BaseRepository` in `base.py` defines no `logical_delete` at all, while every
service (here `EnterpriseService.logical_delete`) calls
`self._repository.logical_delete(entity)`.  On a store containing the requested
enterprise, the call therefore raises `AttributeError` and the row is never
deactivated. -/
theorem c2_logical_delete_attribute_error :
    EnterpriseService.logical_delete [sampleEnterprise] 1 = .error .attributeError := by
  rfl

/-- Claim C6 (code bug): the spec requires `update(id, payload)` to overwrite
exactly the payload's fields (plus `updated_at`), but
`EnterpriseService.update` invokes `self._repository.update(enterprise, schema)`
with the schema as a second positional argument, while
`BaseRepository.update(self, obj, **kwargs)` binds only `obj` positionally —
so the call raises `TypeError` for every payload and no field changes. -/
theorem c6_update_type_error :
    EnterpriseService.update [sampleEnterprise] 1 sampleEnterpriseUpdate = .error .typeError := by
  rfl

/-- Claim C10: `BaseRepository.__init__` accepts exactly one argument (the
model class) and binds the repository to a fresh session from the
process-global `db` singleton; consequently the service constructor call
`BaseRepository[Model, CreateSchema](Model, session)` — two type arguments for
`Generic[T]` and two positional constructor arguments — raises `TypeError`
for every domain service instead of producing a session-bound repository. -/
theorem c10_repository_constructor_type_error :
    (∀ (db : DbState) (modelName : String),
        DomainService.initRepository db modelName = .error .typeError) ∧
    (∀ (db : DbState) (modelName : String),
        BaseRepository.init db [modelName] =
          .ok ({ modelName := modelName, sessionId := db.sessionsCreated + 1 },
               { sessionsCreated := db.sessionsCreated + 1 })) ∧
    (∀ (db : DbState), BaseRepository.init db [] = .error .typeError) ∧
    (∀ (db : DbState) (a b : String) (rest : List String),
        BaseRepository.init db (a :: b :: rest) = .error .typeError) := by
  refine ⟨fun db m => rfl, fun db m => rfl, fun db => rfl, fun db a b rest => rfl⟩

/-- Claim C5: for an id with no matching row, `BaseRepository.get_by_id`
returns the absence sentinel (`None`), and the service's get-by-id operation
(`EnterpriseService.list_by_id`) then fails with `NotFoundException` carrying
the entity kind name and the requested id. -/
theorem c5_get_by_id_sentinel (store : List Enterprise) (i : Nat)
    (habsent : ∀ e ∈ store, e.id ≠ i) :
    BaseRepository.get_by_id store i = none ∧
    EnterpriseService.list_by_id store i = .error (.notFoundExc "Enterprise" i) := by
  have h : BaseRepository.get_by_id store i = none := by
    unfold BaseRepository.get_by_id
    rw [List.find?_eq_none]
    intro e he
    simp only [beq_iff_eq]
    exact habsent e he
  refine ⟨h, ?_⟩
  unfold EnterpriseService.list_by_id
  rw [h]

/-- Witness for C5 at a concrete store and id. -/
theorem c5_get_by_id_sentinel_witness :
    BaseRepository.get_by_id [sampleEnterprise] 2 = none ∧
    EnterpriseService.list_by_id [sampleEnterprise] 2 = .error (.notFoundExc "Enterprise" 2) :=
  c5_get_by_id_sentinel [sampleEnterprise] 2 (by decide)

/-- Claim C9, counterexample: the outbound Enterprise response is NOT a view
exposing the active flag and all four audit fields — two enterprise rows that
differ in `status`, `updated_at` and `updated_by` produce identical responses,
so the create response cannot expose `active=true`. -/
theorem c9_counterexample :
    EnterpriseResponseSchema.model_validate sampleEnterprise =
      EnterpriseResponseSchema.model_validate sampleInactiveEnterprise ∧
    sampleEnterprise.status = true ∧ sampleInactiveEnterprise.status = false :=
  ⟨rfl, rfl, rfl⟩

/-- Claim C9, amended: each response is a flattened attribute view, but the
exposed field set varies by kind — the User response exposes the active flag
and all four audit/timestamp fields; the Agent, IAGroup and Tool responses
expose the four audit/timestamp fields but no active flag; the Enterprise
response exposes only `created_at` and `created_by` and no active flag (two
rows differing only in `status`, `updated_at`, `updated_by` are
indistinguishable in it). -/
theorem c9_response_fields_amended :
    (∀ e : Enterprise, EnterpriseResponseSchema.model_validate e =
      { id := e.id, name := e.name, description := e.description, ia_model := e.ia_model,
        created_at := e.created_at, created_by := e.created_by }) ∧
    (∀ u : User, (UserResponseSchema.model_validate u).status = u.status ∧
        (UserResponseSchema.model_validate u).created_at = some u.created_at ∧
        (UserResponseSchema.model_validate u).created_by = some u.created_by ∧
        (UserResponseSchema.model_validate u).updated_at = u.updated_at ∧
        (UserResponseSchema.model_validate u).updated_by = u.updated_by) ∧
    (∀ a : Agent, (AgentResponseSchema.model_validate a).created_at = some a.created_at ∧
        (AgentResponseSchema.model_validate a).created_by = some a.created_by ∧
        (AgentResponseSchema.model_validate a).updated_at = a.updated_at ∧
        (AgentResponseSchema.model_validate a).updated_by = a.updated_by) ∧
    (∀ g : IAGroup, (IAGroupResponseSchema.model_validate g).created_at = some g.created_at ∧
        (IAGroupResponseSchema.model_validate g).created_by = some g.created_by ∧
        (IAGroupResponseSchema.model_validate g).updated_at = g.updated_at ∧
        (IAGroupResponseSchema.model_validate g).updated_by = g.updated_by) ∧
    (∀ t : Tool, (ToolResponseSchema.model_validate t).created_at = some t.created_at ∧
        (ToolResponseSchema.model_validate t).created_by = some t.created_by ∧
        (ToolResponseSchema.model_validate t).updated_at = t.updated_at ∧
        (ToolResponseSchema.model_validate t).updated_by = t.updated_by) ∧
    (∃ e e' : Enterprise, EnterpriseResponseSchema.model_validate e =
        EnterpriseResponseSchema.model_validate e' ∧
        e.status ≠ e'.status ∧ e.updated_at ≠ e'.updated_at ∧ e.updated_by ≠ e'.updated_by) := by
  refine ⟨fun e => rfl, fun u => ⟨rfl, rfl, rfl, rfl, rfl⟩, fun a => ⟨rfl, rfl, rfl, rfl⟩,
    fun g => ⟨rfl, rfl, rfl, rfl⟩, fun t => ⟨rfl, rfl, rfl, rfl⟩,
    sampleEnterprise, sampleInactiveEnterprise, rfl, by decide, by decide, by decide⟩

/-- Claim C7, counterexample: `EnterpriseCreateSchema` declares `created_by`
as required with no default, so a payload supplying only name, description and
ia_model is rejected with a validation error instead of defaulting
`created_by` to "system". -/
theorem c7_counterexample :
    EnterpriseCreateSchema.validate
      { name := some "Acme", description := some "a valid description",
        ia_model := some "gpt", created_by := none } = .error .validationError := by
  rfl

/-- Claim C7, amended: the "system" default for the attribution fields holds
for the Agent, IAGroup, Tool and User create and update schemas, but NOT for
Enterprise — `EnterpriseCreateSchema.created_by` and
`EnterpriseUpdateSchema.updated_by` are required, so payloads omitting them
fail validation. -/
theorem c7_created_by_default_amended :
    (∀ (p : AgentCreatePayload) (s : AgentCreateSchema),
        AgentCreateSchema.validate p = .ok s → p.created_by = none → s.created_by = "system") ∧
    (∀ (p : IAGroupCreatePayload) (s : IAGroupCreateSchema),
        IAGroupCreateSchema.validate p = .ok s → p.created_by = none → s.created_by = "system") ∧
    (∀ (p : ToolCreatePayload) (s : ToolCreateSchema),
        ToolCreateSchema.validate p = .ok s → p.created_by = none → s.created_by = "system") ∧
    (∀ (p : UserCreatePayload) (s : UserCreateSchema),
        UserCreateSchema.validate p = .ok s → p.created_by = none → s.created_by = "system") ∧
    (∀ (p : AgentUpdatePayload) (s : AgentUpdateSchema),
        AgentUpdateSchema.validate p = .ok s → p.updated_by = none → s.updated_by = "system") ∧
    (∀ (p : IAGroupUpdatePayload) (s : IAGroupUpdateSchema),
        IAGroupUpdateSchema.validate p = .ok s → p.updated_by = none → s.updated_by = "system") ∧
    (∀ (p : ToolUpdatePayload) (s : ToolUpdateSchema),
        ToolUpdateSchema.validate p = .ok s → p.updated_by = none → s.updated_by = "system") ∧
    (∀ (p : UserUpdatePayload) (s : UserUpdateSchema),
        UserUpdateSchema.validate p = .ok s → p.updated_by = none → s.updated_by = "system") ∧
    (∀ p : EnterpriseCreatePayload,
        p.created_by = none → EnterpriseCreateSchema.validate p = .error .validationError) ∧
    (∀ p : EnterpriseUpdatePayload,
        p.updated_by = none → EnterpriseUpdateSchema.validate p = .error .validationError) := by
  refine ⟨?_, ?_, ?_, ?_, ?_, ?_, ?_, ?_, ?_, ?_⟩
  · intro p s h hnone
    unfold AgentCreateSchema.validate at h
    split at h
    · injection h with h2; subst h2; simp [hnone]
    · simp at h
  · intro p s h hnone
    unfold IAGroupCreateSchema.validate at h
    split at h
    · injection h with h2; subst h2; simp [hnone]
    · simp at h
  · intro p s h hnone
    unfold ToolCreateSchema.validate at h
    split at h
    · injection h with h2; subst h2; simp [hnone]
    · simp at h
  · intro p s h hnone
    unfold UserCreateSchema.validate at h
    split at h
    · split at h
      · injection h with h2; subst h2; simp [hnone]
      · simp at h
    · simp at h
  · intro p s h hnone
    unfold AgentUpdateSchema.validate at h
    split at h
    · injection h with h2; subst h2; simp [hnone]
    · simp at h
  · intro p s h hnone
    unfold IAGroupUpdateSchema.validate at h
    injection h with h2; subst h2; simp [hnone]
  · intro p s h hnone
    unfold ToolUpdateSchema.validate at h
    split at h
    · injection h with h2; subst h2; simp [hnone]
    · simp at h
  · intro p s h hnone
    unfold UserUpdateSchema.validate at h
    split at h
    · split at h
      · injection h with h2; subst h2; simp [hnone]
      · simp at h
    · injection h with h2; subst h2; simp [hnone]
  · intro p hnone
    unfold EnterpriseCreateSchema.validate
    cases hn : p.name <;> cases hd : p.description <;> cases hm : p.ia_model <;>
      simp [hn, hd, hm, hnone]
  · intro p hnone
    unfold EnterpriseUpdateSchema.validate
    cases hn : p.name <;> cases hd : p.description <;> cases hm : p.ia_model <;>
      simp [hn, hd, hm, hnone]

/-- Witness for C7, amended: a concrete Agent create payload without
`created_by` validates to the "system" attribution, and a concrete Enterprise
create payload without `created_by` is rejected. -/
theorem c7_created_by_default_amended_witness :
    ({ name := "Bot", description := "a valid description",
       system_message := "be a helpful agent", created_by := "system" } : AgentCreateSchema).created_by
        = "system" ∧
    EnterpriseCreateSchema.validate
      { name := some "Acme", description := some "a valid description",
        ia_model := some "gpt", created_by := none } = .error .validationError :=
  ⟨c7_created_by_default_amended.1
      { name := some "Bot", description := some "a valid description",
        system_message := some "be a helpful agent", created_by := none }
      _ rfl rfl,
   c7_created_by_default_amended.2.2.2.2.2.2.2.2.1
      { name := some "Acme", description := some "a valid description",
        ia_model := some "gpt", created_by := none } rfl⟩

/-! ## Lemmas about the association repository -/

/-- Inversion of `rowOfValues`: a successfully built row pairs the given ids in
the orientation of the key names. -/
theorem rowOfValues_cases (t : AssocTable) (lk rk : String) (l r : Nat) (row : Nat × Nat)
    (h : rowOfValues t lk l rk r = some row) :
    (lk = t.col1 ∧ rk = t.col2 ∧ row = (l, r)) ∨ (lk = t.col2 ∧ rk = t.col1 ∧ row = (r, l)) := by
  unfold rowOfValues at h
  split at h
  · rename_i hc
    exact Or.inl ⟨hc.1, hc.2, (Option.some.inj h).symm⟩
  · split at h
    · rename_i hc
      exact Or.inr ⟨hc.1, hc.2, (Option.some.inj h).symm⟩
    · exact absurd h (by simp)

/-- If a row was built from the values dictionary, both keys name actual
columns of the table. -/
theorem validKeys_of_rowOfValues (t : AssocTable) (lk rk : String) (l r : Nat) (row : Nat × Nat)
    (h : rowOfValues t lk l rk r = some row) : validKeys t lk rk = true := by
  rcases rowOfValues_cases t lk rk l r row h with ⟨h1, h2, _⟩ | ⟨h1, h2, _⟩ <;>
    simp [validKeys, h1, h2]

/-- Reading back a row built by `rowOfValues` through `colVal` with the same
keys recovers the ids (the two columns being distinct, as they are in every
association table of the repository). -/
theorem colVal_rowOfValues (t : AssocTable) (lk rk : String) (l r : Nat) (row : Nat × Nat)
    (hcols : t.col1 ≠ t.col2) (h : rowOfValues t lk l rk r = some row) :
    colVal t row lk = some l ∧ colVal t row rk = some r := by
  rcases rowOfValues_cases t lk rk l r row h with ⟨h1, h2, h3⟩ | ⟨h1, h2, h3⟩ <;>
    subst h1 <;> subst h2 <;> subst h3 <;>
    exact ⟨by simp [colVal, Ne.symm hcols], by simp [colVal, Ne.symm hcols]⟩

/-- Inversion of a successful `link`. -/
theorem link_ok (t t' : AssocTable) (a b : Nat) (lk rk : String)
    (h : ManyToManyRepository.link t a b lk rk = .ok t') :
    ∃ row, rowOfValues t lk a rk b = some row ∧ row ∉ t.rows ∧
      t' = { t with rows := t.rows ++ [row] } := by
  unfold ManyToManyRepository.link at h
  split at h
  · exact absurd h (by simp)
  · rename_i row hrow
    split at h
    · exact absurd h (by simp)
    · rename_i hmem
      exact ⟨row, hrow, hmem, (Except.ok.inj h).symm⟩

/-- Inversion of a successful `unlink`. -/
theorem unlink_ok (t t2 : AssocTable) (a b : Nat) (lk rk : String)
    (h : ManyToManyRepository.unlink t a b lk rk = .ok t2) :
    validKeys t lk rk = true ∧
    t2 = { t with
      rows := t.rows.filter (fun row => ! ManyToManyRepository.unlinkMatches t a b lk rk row) } := by
  unfold ManyToManyRepository.unlink at h
  split at h
  · rename_i hv
    exact ⟨hv, (Except.ok.inj h).symm⟩
  · exact absurd h (by simp)

/-- Replacing the rows of a table does not change which keys are valid. -/
theorem validKeys_rows_irrel (t : AssocTable) (rs : List (Nat × Nat)) (lk rk : String) :
    validKeys { t with rows := rs } lk rk = validKeys t lk rk := rfl

/-- `colVal` depends only on the columns, not on the stored rows. -/
theorem colVal_rows_irrel (t : AssocTable) (rs : List (Nat × Nat)) (row : Nat × Nat) (k : String) :
    colVal { t with rows := rs } row k = colVal t row k := rfl

/-- `unlinkMatches` depends only on the columns, not on the stored rows. -/
theorem unlinkMatches_rows_irrel (t : AssocTable) (rs : List (Nat × Nat)) (a b : Nat)
    (lk rk : String) (row : Nat × Nat) :
    ManyToManyRepository.unlinkMatches { t with rows := rs } a b lk rk row =
      ManyToManyRepository.unlinkMatches t a b lk rk row := rfl

/-- With valid keys, `unlink` always succeeds (deleting zero rows included). -/
theorem unlink_isOk (t : AssocTable) (a b : Nat) (lk rk : String)
    (hv : validKeys t lk rk = true) :
    ∃ t2, ManyToManyRepository.unlink t a b lk rk = .ok t2 := by
  unfold ManyToManyRepository.unlink
  rw [if_pos hv]
  exact ⟨_, rfl⟩

/-- With valid keys, `get_links` always succeeds. -/
theorem get_links_isOk (t : AssocTable) (anchor : Nat) (lk rk : String)
    (hv : validKeys t lk rk = true) :
    ∃ ids, ManyToManyRepository.get_links t anchor lk rk = .ok ids := by
  unfold ManyToManyRepository.get_links
  rw [if_pos hv]
  exact ⟨_, rfl⟩

/-- Membership in a `get_links` result, characterised through the stored rows. -/
theorem mem_get_links (t : AssocTable) (anchor : Nat) (lk rk : String) (ids : List Nat)
    (h : ManyToManyRepository.get_links t anchor lk rk = .ok ids) (x : Nat) :
    x ∈ ids ↔ ∃ row ∈ t.rows, colVal t row lk = some anchor ∧ colVal t row rk = some x := by
  unfold ManyToManyRepository.get_links at h
  split at h
  · have hids := Except.ok.inj h
    subst hids
    simp only [List.mem_filterMap, List.mem_filter, beq_iff_eq]
    constructor
    · rintro ⟨row, ⟨hmem, hl⟩, hr⟩
      exact ⟨row, hmem, hl, hr⟩
    · rintro ⟨row, hmem, hl, hr⟩
      exact ⟨row, ⟨hmem, hl⟩, hr⟩
  · exact absurd h (by simp)

/-- After an `unlink`, `get_links` anchored at the same left id no longer
reports the removed right id. -/
theorem not_mem_get_links_after_unlink (t t2 : AssocTable) (a b : Nat) (lk rk : String)
    (hun : ManyToManyRepository.unlink t a b lk rk = .ok t2) (ids : List Nat)
    (hg : ManyToManyRepository.get_links t2 a lk rk = .ok ids) : b ∉ ids := by
  obtain ⟨_, ht2⟩ := unlink_ok t t2 a b lk rk hun
  intro hb
  obtain ⟨row, hmem, hl, hr⟩ := (mem_get_links t2 a lk rk ids hg b).mp hb
  rw [ht2] at hmem
  have hkeep := (List.mem_filter.mp hmem).2
  rw [unlinkMatches_rows_irrel] at hkeep
  rw [ht2] at hl hr
  rw [colVal_rows_irrel] at hl hr
  unfold ManyToManyRepository.unlinkMatches at hkeep
  rw [hl, hr] at hkeep
  simp at hkeep

/-! ## Claims about linking and unlinking -/

/-- Claim C3: round-trip of the Association Repository — after a successful
`link(a, b)`, `get_links(a)` includes `b`, and after a subsequent
`unlink(a, b)` it excludes `b`.  (A `link` on an already-present pair leaves
the table unchanged with an `IntegrityError`, in which state `get_links(a)`
already included `b`, so only the successful case produces a new state.) -/
theorem c3_link_roundtrip (t t' : AssocTable) (a b : Nat) (lk rk : String)
    (hcols : t.col1 ≠ t.col2)
    (hlink : ManyToManyRepository.link t a b lk rk = .ok t') :
    (∃ ids, ManyToManyRepository.get_links t' a lk rk = .ok ids ∧ b ∈ ids) ∧
    (∃ t2 ids2, ManyToManyRepository.unlink t' a b lk rk = .ok t2 ∧
        ManyToManyRepository.get_links t2 a lk rk = .ok ids2 ∧ b ∉ ids2) := by
  obtain ⟨row, hrow, hnotmem, ht'⟩ := link_ok t t' a b lk rk hlink
  have hv : validKeys t lk rk = true := validKeys_of_rowOfValues t lk rk a b row hrow
  have hv' : validKeys t' lk rk = true := by rw [ht', validKeys_rows_irrel]; exact hv
  have hcv := colVal_rowOfValues t lk rk a b row hcols hrow
  constructor
  · obtain ⟨ids, hids⟩ := get_links_isOk t' a lk rk hv'
    refine ⟨ids, hids, ?_⟩
    rw [mem_get_links t' a lk rk ids hids b]
    refine ⟨row, ?_, ?_, ?_⟩
    · rw [ht']
      exact List.mem_append_right _ (List.mem_singleton.mpr rfl)
    · rw [ht', colVal_rows_irrel]
      exact hcv.1
    · rw [ht', colVal_rows_irrel]
      exact hcv.2
  · obtain ⟨t2, ht2ok⟩ := unlink_isOk t' a b lk rk hv'
    have hv2 : validKeys t2 lk rk = true := by
      obtain ⟨_, ht2⟩ := unlink_ok t' t2 a b lk rk ht2ok
      rw [ht2, validKeys_rows_irrel]
      exact hv'
    obtain ⟨ids2, hids2⟩ := get_links_isOk t2 a lk rk hv2
    exact ⟨t2, ids2, ht2ok, hids2,
      not_mem_get_links_after_unlink t' t2 a b lk rk ht2ok ids2 hids2⟩

/-- Witness for C3 on the concrete scenario of the spec: linking IAGroup 5 to
Enterprise 1 in an empty `enterprise_ia_group` table. -/
theorem c3_link_roundtrip_witness :
    (∃ ids, ManyToManyRepository.get_links (enterpriseIaGroupAssociation [(1, 5)]) 1
        "enterprise_id" "ia_group_id" = .ok ids ∧ 5 ∈ ids) ∧
    (∃ t2 ids2, ManyToManyRepository.unlink (enterpriseIaGroupAssociation [(1, 5)]) 1 5
        "enterprise_id" "ia_group_id" = .ok t2 ∧
        ManyToManyRepository.get_links t2 1 "enterprise_id" "ia_group_id" = .ok ids2 ∧ 5 ∉ ids2) :=
  c3_link_roundtrip (enterpriseIaGroupAssociation []) (enterpriseIaGroupAssociation [(1, 5)])
    1 5 "enterprise_id" "ia_group_id" (by decide) (by rfl)

/-- Claim C4: `unlink` never raises merely because there was nothing to
delete — on any table with valid keys it succeeds, a second identical call is
a no-op returning the same state, a pair that was never present leaves the
table unchanged, the right id is absent from `get_links` after the call, and
the service's `unlink_ia_group` delegates to the repository `unlink` directly,
with no existence pre-check. -/
theorem c4_unlink_idempotent (t : AssocTable) (a b : Nat) (lk rk : String)
    (hv : validKeys t lk rk = true) :
    ∃ t1, ManyToManyRepository.unlink t a b lk rk = .ok t1 ∧
      ManyToManyRepository.unlink t1 a b lk rk = .ok t1 ∧
      ((∀ row ∈ t.rows, ManyToManyRepository.unlinkMatches t a b lk rk row = false) → t1 = t) ∧
      (∀ ids, ManyToManyRepository.get_links t1 a lk rk = .ok ids → b ∉ ids) ∧
      (∀ (assocRows : List (Nat × Nat)) (eid gid : Nat),
        EnterpriseService.unlink_ia_group assocRows eid gid =
          ManyToManyRepository.unlink (enterpriseIaGroupAssociation assocRows) eid gid
            "enterprise_id" "ia_group_id") := by
  obtain ⟨t1, ht1ok⟩ := unlink_isOk t a b lk rk hv
  obtain ⟨_, ht1⟩ := unlink_ok t t1 a b lk rk ht1ok
  refine ⟨t1, ht1ok, ?_, ?_, ?_, fun assocRows eid gid => rfl⟩
  · unfold ManyToManyRepository.unlink
    rw [ht1, validKeys_rows_irrel, if_pos hv]
    simp only [unlinkMatches_rows_irrel]
    have hFF := List.filter_eq_self.mpr
      (fun x hx => (List.mem_filter.mp hx).2 :
        ∀ x ∈ t.rows.filter (fun row => ! ManyToManyRepository.unlinkMatches t a b lk rk row),
          (fun row => ! ManyToManyRepository.unlinkMatches t a b lk rk row) x)
    rw [hFF]
  · intro hnone
    rw [ht1]
    have hFF : t.rows.filter (fun row => ! ManyToManyRepository.unlinkMatches t a b lk rk row) =
        t.rows := by
      apply List.filter_eq_self.mpr
      intro x hx
      simp [hnone x hx]
    rw [hFF]
  · intro ids hg
    exact not_mem_get_links_after_unlink t t1 a b lk rk ht1ok ids hg

/-- Witness for C4 on a concrete pair never linked in the concrete
`enterprise_ia_group` table. -/
theorem c4_unlink_idempotent_witness :
    ∃ t1, ManyToManyRepository.unlink (enterpriseIaGroupAssociation [(2, 7)]) 1 5
        "enterprise_id" "ia_group_id" = .ok t1 ∧
      ManyToManyRepository.unlink t1 1 5 "enterprise_id" "ia_group_id" = .ok t1 ∧
      ((∀ row ∈ (enterpriseIaGroupAssociation [(2, 7)]).rows,
          ManyToManyRepository.unlinkMatches (enterpriseIaGroupAssociation [(2, 7)]) 1 5
            "enterprise_id" "ia_group_id" row = false) →
        t1 = enterpriseIaGroupAssociation [(2, 7)]) ∧
      (∀ ids, ManyToManyRepository.get_links t1 1 "enterprise_id" "ia_group_id" = .ok ids →
        5 ∉ ids) ∧
      (∀ (assocRows : List (Nat × Nat)) (eid gid : Nat),
        EnterpriseService.unlink_ia_group assocRows eid gid =
          ManyToManyRepository.unlink (enterpriseIaGroupAssociation assocRows) eid gid
            "enterprise_id" "ia_group_id") :=
  c4_unlink_idempotent (enterpriseIaGroupAssociation [(2, 7)]) 1 5
    "enterprise_id" "ia_group_id" (by rfl)

/-- Claim C8: inserting an already-present pair violates the composite primary
key of the association table and surfaces as the distinguishable
`IntegrityError`, leaving the table unchanged (no duplicate row is created,
since only an `.ok` result carries a new table); once both existence checks
pass, the service returns exactly the repository's `link` result — it catches
and translates nothing. -/
theorem c8_already_linked (t : AssocTable) (a b : Nat) (lk rk : String) (row : Nat × Nat)
    (hrow : rowOfValues t lk a rk b = some row) (hmem : row ∈ t.rows) :
    ManyToManyRepository.link t a b lk rk = .error .integrityError ∧
    (∀ (ents : List Enterprise) (iaGroups : List IAGroup) (assocRows : List (Nat × Nat))
        (eid gid : Nat),
      (BaseRepository.get_by_id ents eid).isSome = true →
      (sessionGet iaGroups gid).isSome = true →
      EnterpriseService.link_ia_group ents iaGroups assocRows eid gid =
        ManyToManyRepository.link (enterpriseIaGroupAssociation assocRows) eid gid
          "enterprise_id" "ia_group_id") := by
  constructor
  · unfold ManyToManyRepository.link
    simp only [hrow]
    rw [if_pos hmem]
  · intro ents iaGroups assocRows eid gid h1 h2
    rcases hx : BaseRepository.get_by_id ents eid with _ | e
    · rw [hx] at h1
      simp at h1
    · rcases hy : sessionGet iaGroups gid with _ | g
      · rw [hy] at h2
        simp at h2
      · unfold EnterpriseService.link_ia_group
        rw [hx, hy]

/-- Witness for C8: re-linking the already-linked pair (1, 5), both at the
repository and through the service with both entities present. -/
theorem c8_already_linked_witness :
    ManyToManyRepository.link (enterpriseIaGroupAssociation [(1, 5)]) 1 5
      "enterprise_id" "ia_group_id" = .error .integrityError ∧
    EnterpriseService.link_ia_group [sampleEnterprise] [sampleIAGroup] [(1, 5)] 1 5 =
      .error .integrityError := by
  have h := c8_already_linked (enterpriseIaGroupAssociation [(1, 5)]) 1 5
    "enterprise_id" "ia_group_id" (1, 5) (by rfl) (List.mem_singleton.mpr rfl)
  refine ⟨h.1, ?_⟩
  rw [h.2 [sampleEnterprise] [sampleIAGroup] [(1, 5)] 1 5 (by rfl) (by rfl)]
  exact h.1

/-- Claim C1, counterexample: `UserService.link_enterprise` with an existing
user (id 1) and a non-existent enterprise id 99 does NOT raise NotFound for
the enterprise — it inserts the association row (foreign keys are not
enforced), and the user's `list_enterprises` afterwards reports 99. -/
theorem c1_counterexample :
    UserService.link_enterprise [sampleUser] [] 1 99 =
      .ok (userEnterpriseAssociation [(99, 1)]) ∧
    UserService.list_enterprises [(99, 1)] 1 = .ok [99] :=
  ⟨rfl, rfl⟩

/-- Claim C1, amended: `EnterpriseService.link_ia_group` and
`IAGroupService.link_agent` behave as the claim states — this entity is loaded
first (NotFound with this kind's name and id if absent), then the other entity
from the other store (NotFound with the other kind's name and id if absent,
and no association row is created since only the error is returned), and only
after both checks does the repository `link` run.  `UserService.link_enterprise`
however checks only the user: if the user is absent it raises
NotFound("User", user_id), and otherwise it delegates to `link` directly
without ever consulting the enterprise store. -/
theorem c1_link_checks_amended (ents : List Enterprise) (iaGroups : List IAGroup)
    (agents : List Agent) (users : List User) (assocRows : List (Nat × Nat)) (a b : Nat) :
    (BaseRepository.get_by_id ents a = none →
        EnterpriseService.link_ia_group ents iaGroups assocRows a b =
          .error (.notFoundExc "Enterprise" a)) ∧
    ((BaseRepository.get_by_id ents a).isSome = true → sessionGet iaGroups b = none →
        EnterpriseService.link_ia_group ents iaGroups assocRows a b =
          .error (.notFoundExc "IAGroup" b)) ∧
    ((BaseRepository.get_by_id ents a).isSome = true → (sessionGet iaGroups b).isSome = true →
        EnterpriseService.link_ia_group ents iaGroups assocRows a b =
          ManyToManyRepository.link (enterpriseIaGroupAssociation assocRows) a b
            "enterprise_id" "ia_group_id") ∧
    (BaseRepository.get_by_id iaGroups a = none →
        IAGroupService.link_agent iaGroups agents assocRows a b =
          .error (.notFoundExc "IA Group" a)) ∧
    ((BaseRepository.get_by_id iaGroups a).isSome = true → sessionGet agents b = none →
        IAGroupService.link_agent iaGroups agents assocRows a b =
          .error (.notFoundExc "Agent" b)) ∧
    ((BaseRepository.get_by_id iaGroups a).isSome = true → (sessionGet agents b).isSome = true →
        IAGroupService.link_agent iaGroups agents assocRows a b =
          ManyToManyRepository.link (iaGroupAgentAssociation assocRows) a b
            "ia_group_id" "agent_id") ∧
    (BaseRepository.get_by_id users a = none →
        UserService.link_enterprise users assocRows a b = .error (.notFoundExc "User" a)) ∧
    ((BaseRepository.get_by_id users a).isSome = true →
        UserService.link_enterprise users assocRows a b =
          ManyToManyRepository.link (userEnterpriseAssociation assocRows) a b
            "user_id" "enterprise_id") := by
  refine ⟨?_, ?_, ?_, ?_, ?_, ?_, ?_, ?_⟩
  · intro h
    unfold EnterpriseService.link_ia_group
    rw [h]
  · intro h1 h2
    rcases hx : BaseRepository.get_by_id ents a with _ | e
    · rw [hx] at h1; simp at h1
    · unfold EnterpriseService.link_ia_group
      rw [hx, h2]
  · intro h1 h2
    rcases hx : BaseRepository.get_by_id ents a with _ | e
    · rw [hx] at h1; simp at h1
    · rcases hy : sessionGet iaGroups b with _ | g
      · rw [hy] at h2; simp at h2
      · unfold EnterpriseService.link_ia_group
        rw [hx, hy]
  · intro h
    unfold IAGroupService.link_agent
    rw [h]
  · intro h1 h2
    rcases hx : BaseRepository.get_by_id iaGroups a with _ | g
    · rw [hx] at h1; simp at h1
    · unfold IAGroupService.link_agent
      rw [hx, h2]
  · intro h1 h2
    rcases hx : BaseRepository.get_by_id iaGroups a with _ | g
    · rw [hx] at h1; simp at h1
    · rcases hy : sessionGet agents b with _ | ag
      · rw [hy] at h2; simp at h2
      · unfold IAGroupService.link_agent
        rw [hx, hy]
  · intro h
    unfold UserService.link_enterprise
    rw [h]
  · intro h1
    rcases hx : BaseRepository.get_by_id users a with _ | u
    · rw [hx] at h1; simp at h1
    · unfold UserService.link_enterprise
      rw [hx]

/-- Witness for C1, amended: with Enterprise 1 present and no IAGroup 99 the
enterprise service raises NotFound("IAGroup", 99); with user 1 present the
user service delegates straight to the repository `link`. -/
theorem c1_link_checks_amended_witness :
    EnterpriseService.link_ia_group [sampleEnterprise] [] [] 1 99 =
      .error (.notFoundExc "IAGroup" 99) ∧
    UserService.link_enterprise [sampleUser] [] 1 99 =
      ManyToManyRepository.link (userEnterpriseAssociation []) 1 99 "user_id" "enterprise_id" :=
  ⟨(c1_link_checks_amended [sampleEnterprise] [] [] [] [] 1 99).2.1 (by rfl) (by rfl),
   (c1_link_checks_amended [] [] [] [sampleUser] [] 1 99).2.2.2.2.2.2.2 (by rfl)⟩

end LuminousNeural
